import Mathlib

/-!
# Verification of the kubestellar multi-cluster reconciliation core

Shallow embedding of the multi-cluster executor (`pkg/multicluster/executor.go`),
capability selector (`pkg/multicluster/selector.go`), client manager
(`pkg/mcp/server/upgrades.go`), gitops manifest reader, drift detector and
syncer, together with theorems settling the frozen claims about them.

Modelling conventions:
* Go `interface{}` JSON-like values become the inductive `JValue`; Go string
  maps become association lists (Go map iteration order is arbitrary, so every
  theorem that depends on order is stated for all orders or is order-independent).
* Goroutine fan-out is modelled by serialising the mutex-protected appends:
  the completion order is an arbitrary permutation of the worker indices,
  universally quantified in the theorems.
* Network calls (client construction, node listing, object get/create/patch)
  are oracle parameters; `Except String` models Go's `(T, error)` returns.
* Numeric JSON values are modelled as integers (no claim depends on
  non-integral numbers), and `resource.ParseQuantity` is embedded over `ℚ`
  with the sign/digits/fraction/exponent/SI-suffix grammar.
-/

namespace KubeStellar

/-- Decidable equality for `Except`, used to evaluate embedded fallible
operations at concrete inputs. -/
instance {ε α : Type} [DecidableEq ε] [DecidableEq α] : DecidableEq (Except ε α) :=
  fun a b =>
    match a, b with
    | .ok x, .ok y =>
      if h : x = y then isTrue (by rw [h]) else isFalse (fun hh => h (Except.ok.inj hh))
    | .error x, .error y =>
      if h : x = y then isTrue (by rw [h]) else isFalse (fun hh => h (Except.error.inj hh))
    | .ok _, .error _ => isFalse (fun hh => Except.noConfusion hh)
    | .error _, .ok _ => isFalse (fun hh => Except.noConfusion hh)

/-- The result of an operation on a single cluster (`ClusterResult` in
`executor.go`); `error = ""` means no error, matching the Go zero value. -/
structure ClusterResult (α : Type) where
  cluster : String
  result : Option α
  error : String
  deriving Repr, DecidableEq

/-- One worker body of `ExecuteOnSelected`/`executeAll`: construct the handle
for `name` via `getClient`, run `fn`, and capture any error in the result
rather than propagating it. -/
def mkResult {κ α : Type} (getClient : String → Except String κ)
    (fn : κ → String → Except String α) (name : String) : ClusterResult α :=
  match getClient name with
  | .error e => ⟨name, none, e⟩
  | .ok client =>
    match fn client name with
    | .error e => ⟨name, none, e⟩
    | .ok v => ⟨name, some v, ""⟩

/-- `Executor.ExecuteOnSelected`: one goroutine per requested name, results
appended under a mutex in completion order.  `order` is the completion order,
a permutation of the worker indices. -/
def executeOnSelected {κ α : Type} (getClient : String → Except String κ)
    (fn : κ → String → Except String α) (names : List String)
    (order : List (Fin names.length)) : List (ClusterResult α) :=
  order.map (fun i => mkResult getClient fn (names.get i))

/-- `ClusterInfo` from `upgrades.go` (labels and flags are irrelevant to the
claims; the executor only uses `name`). -/
structure ClusterInfo where
  name : String
  server : String
  current : Bool
  deriving Repr, DecidableEq

/-- `Executor.executeAll`: discover all clusters, then fan out exactly like
`ExecuteOnSelected` over their names. -/
def executeAll {κ α : Type} (getClient : String → Except String κ)
    (fn : κ → String → Except String α) (clusters : List ClusterInfo)
    (order : List (Fin (clusters.map ClusterInfo.name).length)) :
    List (ClusterResult α) :=
  executeOnSelected getClient fn (clusters.map ClusterInfo.name) order

/-- `Executor.executeSingle`: synchronous execution with the same per-cluster
error capture as the fan-out path. -/
def executeSingle {κ α : Type} (getClient : String → Except String κ)
    (fn : κ → String → Except String α) (name : String) : List (ClusterResult α) :=
  [mkResult getClient fn name]

/-- `Executor.Execute`: a non-empty name selects single-cluster mode, an empty
name fans out over all discovered clusters. -/
def execute {κ α : Type} (getClient : String → Except String κ)
    (fn : κ → String → Except String α) (clusterName : String)
    (clusters : List ClusterInfo)
    (order : List (Fin (clusters.map ClusterInfo.name).length)) :
    List (ClusterResult α) :=
  if clusterName ≠ "" then executeSingle getClient fn clusterName
  else executeAll getClient fn clusters order

/-- The mutable fields of `ClientManager` guarded by its lock: the client
cache, plus a log of the names for which a client construction succeeded
(recording every `kubernetes.NewForConfig` success). -/
structure CMState (κ : Type) where
  clients : List (String × κ)
  constructions : List String
  deriving Repr

/-- The freshly initialised `ClientManager` cache. -/
def CMState.init {κ : Type} : CMState κ := ⟨[], []⟩

/-- Where an in-flight `GetClient` call stands between its two lock-protected
sections: `start` means it is about to take the read lock for the optimistic
lookup; `beforeWrite` means the optimistic lookup missed, the read lock has
been released and the call is waiting to acquire the write lock — another
call may construct and insert in between, which is exactly the window the
write-locked double-check exists for. -/
inductive CMPhase where
  | start
  | beforeWrite
  deriving Repr, DecidableEq

/-- One in-flight `GetClient` call: the requested cluster name and the phase
it has reached. -/
structure CMCall where
  name : String
  phase : CMPhase
  deriving Repr, DecidableEq

/-- One atomic lock-protected section of `ClientManager.GetClient`.  In phase
`start` it is the read-locked optimistic lookup: a hit returns the cached
client, a miss releases the read lock and leaves the call pending at
`beforeWrite`.  In phase `beforeWrite` it is the whole write-locked section:
the double-check lookup, and on a miss the construction (`mk` models
`getConfigForContext` + `kubernetes.NewForConfig`, both deterministic in the
cluster name) and insertion — all under the one write lock, hence one atomic
step.  Returns the cache afterwards, the call's continuation (if still
pending), and its result (if it returned). -/
def stepCall {κ : Type} (mk : String → Except String κ) (cache : CMState κ)
    (call : CMCall) : CMState κ × Option CMCall × Option (Except String κ) :=
  match call.phase with
  | .start =>
    match cache.clients.lookup call.name with
    | some client => (cache, none, some (.ok client))
    | none => (cache, some ⟨call.name, .beforeWrite⟩, none)
  | .beforeWrite =>
    match cache.clients.lookup call.name with
    | some client => (cache, none, some (.ok client))
    | none =>
      match mk call.name with
      | .error e => (cache, none, some (.error e))
      | .ok client =>
        (⟨(call.name, client) :: cache.clients, call.name :: cache.constructions⟩,
          none, some (.ok client))

/-- A concurrent execution of `GetClient` calls: `pool` holds the in-flight
calls and the schedule picks, at every point, which call runs its next atomic
lock-protected section (out-of-range picks are no-ops).  This interleaves the
read-locked lookup and the write-locked section of different calls freely —
in particular two calls for the same name can both miss their optimistic
lookup before either takes the write lock. -/
def runSchedule {κ : Type} (mk : String → Except String κ) :
    List Nat → CMState κ → List CMCall → CMState κ
  | [], cache, _ => cache
  | i :: rest, cache, pool =>
    match pool[i]? with
    | none => runSchedule mk rest cache pool
    | some call =>
      let step := stepCall mk cache call
      let pool' :=
        match step.2.1 with
        | some pending => pool.set i pending
        | none => pool.eraseIdx i
      runSchedule mk rest step.1 pool'

/-- The pool of fresh `GetClient` calls for a list of requested names. -/
def initialCalls (names : List String) : List CMCall :=
  names.map (fun n => ⟨n, .start⟩)

/-- GPU inventory entry (`GPUInfo` in `selector.go`); quantities are `int64`. -/
structure GPUInfo where
  type : String
  quantity : Int
  deriving Repr, DecidableEq

/-- `ClusterCapabilities` from `selector.go`; CPU/memory totals are kept as the
quantity strings the Go struct stores. -/
structure ClusterCapabilities where
  cluster : String
  nodeCount : Int
  readyNodes : Int
  totalCPU : String
  totalMemory : String
  allocatableCPU : String
  allocatableMemory : String
  gpus : List GPUInfo
  labels : List (String × String)
  deriving Repr, DecidableEq

/-- `WorkloadRequirements` from `selector.go`. -/
structure WorkloadRequirements where
  minCPU : String
  minMemory : String
  gpuType : String
  minGPU : Int
  nodeLabels : List (String × String)
  deriving Repr, DecidableEq

/-- Fold a digit list into a natural number. -/
def digitsToNat (ds : List Char) : Nat :=
  ds.foldl (fun n c => 10 * n + (c.toNat - 48)) 0

/-- An exact rational quantity value `num / den`, with `den` always a positive
power of ten by construction (embedding of `resource.Quantity`'s value; the
pair is kept unreduced so every operation stays on machine-friendly integer
arithmetic). -/
structure Quantity where
  num : Int
  den : Nat
  deriving Repr, DecidableEq

/-- Product of two quantity values. -/
def Quantity.mul (a b : Quantity) : Quantity :=
  ⟨a.num * b.num, a.den * b.den⟩

/-- Value comparison `a ≤ b` by cross multiplication (`Quantity.Cmp` in
apimachinery compares the represented rational values; the denominators are
positive so cross multiplication is order-preserving). -/
def Quantity.le (a b : Quantity) : Bool :=
  decide (a.num * (b.den : Int) ≤ b.num * (a.den : Int))

/-- SI / binary suffix multipliers accepted by `resource.ParseQuantity`. -/
def suffixMultiplier : String → Option Quantity
  | "" => some ⟨1, 1⟩
  | "Ki" => some ⟨1024, 1⟩
  | "Mi" => some ⟨1024 ^ 2, 1⟩
  | "Gi" => some ⟨1024 ^ 3, 1⟩
  | "Ti" => some ⟨1024 ^ 4, 1⟩
  | "Pi" => some ⟨1024 ^ 5, 1⟩
  | "Ei" => some ⟨1024 ^ 6, 1⟩
  | "n" => some ⟨1, 1000000000⟩
  | "u" => some ⟨1, 1000000⟩
  | "m" => some ⟨1, 1000⟩
  | "k" => some ⟨1000, 1⟩
  | "M" => some ⟨10 ^ 6, 1⟩
  | "G" => some ⟨10 ^ 9, 1⟩
  | "T" => some ⟨10 ^ 12, 1⟩
  | "P" => some ⟨10 ^ 15, 1⟩
  | "E" => some ⟨10 ^ 18, 1⟩
  | _ => none

/-- `resource.ParseQuantity` (apimachinery): an optional sign, digits with an
optional decimal fraction, then either a decimal exponent (`e`/`E` with signed
digits) or an SI/binary suffix.  Anything else is a parse error. -/
def parseQuantity (s : String) : Except String Quantity :=
  let cs := s.data
  let signAndRest : Int × List Char :=
    match cs with
    | '+' :: r => (1, r)
    | '-' :: r => (-1, r)
    | r => (1, r)
  let sign := signAndRest.1
  let afterSign := signAndRest.2
  let intPart := afterSign.takeWhile Char.isDigit
  let afterInt := afterSign.dropWhile Char.isDigit
  let fracAndRest : List Char × List Char :=
    match afterInt with
    | '.' :: r => (r.takeWhile Char.isDigit, r.dropWhile Char.isDigit)
    | r => ([], r)
  let fracPart := fracAndRest.1
  let rest := fracAndRest.2
  if intPart.isEmpty && fracPart.isEmpty then
    .error ("unable to parse quantity's suffix")
  else
    let base : Quantity :=
      ⟨sign * (digitsToNat intPart * 10 ^ fracPart.length + digitsToNat fracPart : Nat),
        10 ^ fracPart.length⟩
    match rest with
    | [] => .ok base
    | c :: r =>
      if (c = 'e' || c = 'E') then
        let expSignAndRest : Bool × List Char :=
          match r with
          | '+' :: r2 => (false, r2)
          | '-' :: r2 => (true, r2)
          | r2 => (false, r2)
        let expDigits := expSignAndRest.2
        if expDigits ≠ [] && expDigits.all Char.isDigit then
          if expSignAndRest.1 then
            .ok ⟨base.num, base.den * 10 ^ digitsToNat expDigits⟩
          else
            .ok ⟨base.num * 10 ^ digitsToNat expDigits, base.den⟩
        else
          match suffixMultiplier (String.mk (c :: r)) with
          | some mult => .ok (base.mul mult)
          | none => .error ("unable to parse quantity's suffix")
      else
        match suffixMultiplier (String.mk (c :: r)) with
        | some mult => .ok (base.mul mult)
        | none => .error ("unable to parse quantity's suffix")

/-- Go string-map lookup with the zero-value default (`m[k]` yields `""` for a
missing key). -/
def lookupD (l : List (String × String)) (k : String) : String :=
  (l.lookup k).getD ""

/-- `Selector.clusterMeetsRequirements` from `selector.go`: conjunctive checks
for GPU (specific type, or sum across all types), memory, CPU and node labels.
A malformed requirement quantity makes `ParseQuantity` err, and the Go code
only enters the comparison when that parse succeeded (`if err == nil`); a
malformed capability quantity fails the check (`if err != nil || ... < 0`). -/
def clusterMeetsRequirements (cap : ClusterCapabilities)
    (req : WorkloadRequirements) : Bool :=
  let gpuOK : Bool :=
    if req.gpuType ≠ "" then
      cap.gpus.any (fun g => g.type == req.gpuType && decide (req.minGPU ≤ g.quantity))
    else if decide (0 < req.minGPU) then
      decide (req.minGPU ≤ (cap.gpus.map GPUInfo.quantity).sum)
    else true
  let memOK : Bool :=
    if req.minMemory = "" then true
    else
      match parseQuantity req.minMemory with
      | .error _ => true
      | .ok required =>
        match parseQuantity cap.allocatableMemory with
        | .error _ => false
        | .ok available => required.le available
  let cpuOK : Bool :=
    if req.minCPU = "" then true
    else
      match parseQuantity req.minCPU with
      | .error _ => true
      | .ok required =>
        match parseQuantity cap.allocatableCPU with
        | .error _ => false
        | .ok available => required.le available
  let labelsOK : Bool :=
    req.nodeLabels.all (fun kv => lookupD cap.labels kv.1 == kv.2)
  gpuOK && memOK && cpuOK && labelsOK

/-- The all-zero `ClusterCapabilities{Cluster: name}` literal that
`GetClusterCapabilities` appends for a cluster whose query failed. -/
def emptyCapabilities (name : String) : ClusterCapabilities :=
  ⟨name, 0, 0, "", "", "", "", [], []⟩

/-- `Selector.GetClusterCapabilities`: fan out the capability query over all
clusters, then keep the successful results and replace each failed cluster by
the name-only zero-valued record. -/
def getClusterCapabilities {κ : Type} (getClient : String → Except String κ)
    (fn : κ → String → Except String ClusterCapabilities)
    (clusters : List ClusterInfo)
    (order : List (Fin (clusters.map ClusterInfo.name).length)) :
    List ClusterCapabilities :=
  (execute getClient fn "" clusters order).filterMap (fun r =>
    if r.error ≠ "" then some (emptyCapabilities r.cluster) else r.result)

/-- `Selector.FindClustersForWorkload`: names of the clusters whose
capabilities pass `clusterMeetsRequirements`. -/
def findClustersForWorkload {κ : Type} (getClient : String → Except String κ)
    (fn : κ → String → Except String ClusterCapabilities)
    (clusters : List ClusterInfo)
    (order : List (Fin (clusters.map ClusterInfo.name).length))
    (req : WorkloadRequirements) : List String :=
  ((getClusterCapabilities getClient fn clusters order).filter
    (fun cap => clusterMeetsRequirements cap req)).map ClusterCapabilities.cluster

/-- A JSON-like dynamic value (Go `interface{}` as produced by the YAML/JSON
decoder).  Objects are association lists of unique keys; numbers are modelled
as integers (no claim depends on non-integral numbers). -/
inductive JValue where
  | null : JValue
  | bool (b : Bool) : JValue
  | num (n : Int) : JValue
  | str (s : String) : JValue
  | arr (xs : List JValue) : JValue
  | obj (fields : List (String × JValue)) : JValue
  deriving Repr

/-- A dynamic object map (`map[string]interface{}`). -/
abbrev JObject := List (String × JValue)

mutual

/-- Decidable structural equality on dynamic values (Go `reflect.DeepEqual`
restricted to the modelled value domain). -/
def JValue.decEq : (a b : JValue) → Decidable (a = b)
  | .null, .null => isTrue rfl
  | .null, .bool _ => isFalse (fun h => JValue.noConfusion h)
  | .null, .num _ => isFalse (fun h => JValue.noConfusion h)
  | .null, .str _ => isFalse (fun h => JValue.noConfusion h)
  | .null, .arr _ => isFalse (fun h => JValue.noConfusion h)
  | .null, .obj _ => isFalse (fun h => JValue.noConfusion h)
  | .bool _, .null => isFalse (fun h => JValue.noConfusion h)
  | .bool a, .bool b =>
    if h : a = b then isTrue (by rw [h]) else isFalse (fun hh => h (JValue.bool.inj hh))
  | .bool _, .num _ => isFalse (fun h => JValue.noConfusion h)
  | .bool _, .str _ => isFalse (fun h => JValue.noConfusion h)
  | .bool _, .arr _ => isFalse (fun h => JValue.noConfusion h)
  | .bool _, .obj _ => isFalse (fun h => JValue.noConfusion h)
  | .num _, .null => isFalse (fun h => JValue.noConfusion h)
  | .num _, .bool _ => isFalse (fun h => JValue.noConfusion h)
  | .num a, .num b =>
    if h : a = b then isTrue (by rw [h]) else isFalse (fun hh => h (JValue.num.inj hh))
  | .num _, .str _ => isFalse (fun h => JValue.noConfusion h)
  | .num _, .arr _ => isFalse (fun h => JValue.noConfusion h)
  | .num _, .obj _ => isFalse (fun h => JValue.noConfusion h)
  | .str _, .null => isFalse (fun h => JValue.noConfusion h)
  | .str _, .bool _ => isFalse (fun h => JValue.noConfusion h)
  | .str _, .num _ => isFalse (fun h => JValue.noConfusion h)
  | .str a, .str b =>
    if h : a = b then isTrue (by rw [h]) else isFalse (fun hh => h (JValue.str.inj hh))
  | .str _, .arr _ => isFalse (fun h => JValue.noConfusion h)
  | .str _, .obj _ => isFalse (fun h => JValue.noConfusion h)
  | .arr _, .null => isFalse (fun h => JValue.noConfusion h)
  | .arr _, .bool _ => isFalse (fun h => JValue.noConfusion h)
  | .arr _, .num _ => isFalse (fun h => JValue.noConfusion h)
  | .arr _, .str _ => isFalse (fun h => JValue.noConfusion h)
  | .arr xs, .arr ys =>
    match JValue.decEqList xs ys with
    | isTrue h => isTrue (by rw [h])
    | isFalse h => isFalse (fun hh => h (JValue.arr.inj hh))
  | .arr _, .obj _ => isFalse (fun h => JValue.noConfusion h)
  | .obj _, .null => isFalse (fun h => JValue.noConfusion h)
  | .obj _, .bool _ => isFalse (fun h => JValue.noConfusion h)
  | .obj _, .num _ => isFalse (fun h => JValue.noConfusion h)
  | .obj _, .str _ => isFalse (fun h => JValue.noConfusion h)
  | .obj _, .arr _ => isFalse (fun h => JValue.noConfusion h)
  | .obj xs, .obj ys =>
    match JValue.decEqObj xs ys with
    | isTrue h => isTrue (by rw [h])
    | isFalse h => isFalse (fun hh => h (JValue.obj.inj hh))

/-- Decidable equality of dynamic value lists. -/
def JValue.decEqList : (xs ys : List JValue) → Decidable (xs = ys)
  | [], [] => isTrue rfl
  | [], _ :: _ => isFalse (fun h => List.noConfusion h)
  | _ :: _, [] => isFalse (fun h => List.noConfusion h)
  | x :: xs, y :: ys =>
    match JValue.decEq x y, JValue.decEqList xs ys with
    | isTrue h1, isTrue h2 => isTrue (by rw [h1, h2])
    | isFalse h1, _ => isFalse (fun h => h1 (List.cons.inj h).1)
    | _, isFalse h2 => isFalse (fun h => h2 (List.cons.inj h).2)

/-- Decidable equality of dynamic object maps. -/
def JValue.decEqObj : (xs ys : List (String × JValue)) → Decidable (xs = ys)
  | [], [] => isTrue rfl
  | [], _ :: _ => isFalse (fun h => List.noConfusion h)
  | _ :: _, [] => isFalse (fun h => List.noConfusion h)
  | (k1, v1) :: xs, (k2, v2) :: ys =>
    match String.decEq k1 k2, JValue.decEq v1 v2, JValue.decEqObj xs ys with
    | isTrue hk, isTrue hv, isTrue ht => isTrue (by rw [hk, hv, ht])
    | isFalse hk, _, _ =>
      isFalse (fun h => hk (congrArg Prod.fst (List.cons.inj h).1))
    | _, isFalse hv, _ =>
      isFalse (fun h => hv (congrArg Prod.snd (List.cons.inj h).1))
    | _, _, isFalse ht => isFalse (fun h => ht (List.cons.inj h).2)

end

instance : DecidableEq JValue := JValue.decEq

mutual

/-- `json.Marshal` of a single value, used only to render difference strings
(string escaping is restricted to quote and backslash; the claims never
exercise other escapes). -/
def jsonStr : JValue → String
  | .null => "null"
  | .bool true => "true"
  | .bool false => "false"
  | .num n => toString n
  | .str s =>
    "\x22" ++ (s.data.map (fun c =>
      if c = '\x22' then "\\\x22" else if c = '\\' then "\\\\" else String.mk [c])).foldl
      (· ++ ·) "" ++ "\x22"
  | .arr xs => "[" ++ jsonStrList xs ++ "]"
  | .obj fields => "\x7b" ++ jsonStrObj fields ++ "\x7d"

/-- Comma-separated rendering of an array body. -/
def jsonStrList : List JValue → String
  | [] => ""
  | [x] => jsonStr x
  | x :: xs => jsonStr x ++ "," ++ jsonStrList xs

/-- Comma-separated rendering of an object body. -/
def jsonStrObj : List (String × JValue) → String
  | [] => ""
  | [(k, v)] => jsonStr (.str k) ++ ":" ++ jsonStr v
  | (k, v) :: xs => jsonStr (.str k) ++ ":" ++ jsonStr v ++ "," ++ jsonStrObj xs

end

/-- `ManifestMetadata` from the gitops manifest model. -/
structure ManifestMetadata where
  name : String
  namespace' : String
  labels : Option (List (String × String))
  annotations : Option (List (String × String))
  deriving Repr, DecidableEq

/-- `Manifest`: the parsed declarative object. `spec`/`data` are `none` when
the corresponding field was absent or not a map (Go `nil` map). -/
structure Manifest where
  apiVersion : String
  kind : String
  metadata : ManifestMetadata
  spec : Option JObject
  data : Option JObject
  raw : JObject
  deriving Repr, DecidableEq

/-- `ResourceKey` — the manifest identity tuple. -/
structure ResourceKey where
  apiVersion : String
  kind : String
  namespace' : String
  name : String
  deriving Repr, DecidableEq

/-- `ResourceKey.String()`: `apiVersion/kind/namespace/name`, namespace omitted
when empty. -/
def ResourceKey.render (k : ResourceKey) : String :=
  if k.namespace' ≠ "" then
    k.apiVersion ++ "/" ++ k.kind ++ "/" ++ k.namespace' ++ "/" ++ k.name
  else
    k.apiVersion ++ "/" ++ k.kind ++ "/" ++ k.name

/-- `Manifest.GetKey()`. -/
def Manifest.getKey (m : Manifest) : ResourceKey :=
  ⟨m.apiVersion, m.kind, m.metadata.namespace', m.metadata.name⟩

/-- `Manifest.GetNamespace()`: defaults the empty namespace to `"default"`. -/
def Manifest.getNamespace (m : Manifest) : String :=
  if m.metadata.namespace' = "" then "default" else m.metadata.namespace'

/-- Keep only the string-valued entries of a dynamic map (the Go code copies
`metadata.labels`/`metadata.annotations` entries whose value type-asserts to
`string`). -/
def stringEntries (fields : JObject) : List (String × String) :=
  fields.filterMap (fun kv =>
    match kv.2 with
    | .str s => some (kv.1, s)
    | _ => none)

/-- `parseManifest`: extract the typed fields out of a raw decoded document. -/
def parseManifest (raw : JObject) : Manifest :=
  let apiVersion :=
    match raw.lookup "apiVersion" with
    | some (.str v) => v
    | _ => ""
  let kind :=
    match raw.lookup "kind" with
    | some (.str v) => v
    | _ => ""
  let metadata :=
    match raw.lookup "metadata" with
    | some (.obj mm) =>
      { name :=
          match mm.lookup "name" with
          | some (.str v) => v
          | _ => ""
        namespace' :=
          match mm.lookup "namespace" with
          | some (.str v) => v
          | _ => ""
        labels :=
          match mm.lookup "labels" with
          | some (.obj lm) => some (stringEntries lm)
          | _ => none
        annotations :=
          match mm.lookup "annotations" with
          | some (.obj am) => some (stringEntries am)
          | _ => none : ManifestMetadata }
    | _ => ⟨"", "", none, none⟩
  let spec :=
    match raw.lookup "spec" with
    | some (.obj sm) => some sm
    | _ => none
  let data :=
    match raw.lookup "data" with
    | some (.obj dm) => some dm
    | _ => none
  ⟨apiVersion, kind, metadata, spec, data, raw⟩

/-- One step of the YAML/JSON stream decoder: a document either decodes to an
optional raw object (`nil` for an empty/null document) or fails with a decode
error. -/
inductive DecodeItem where
  | doc (o : Option JObject) : DecodeItem
  | fail (e : String) : DecodeItem
  deriving Repr

/-- `ManifestReader.ReadFromReader`: loop over decoded documents, skip `nil`
documents and documents without a `kind`, and return the decode error on a
document that fails to decode. -/
def readFromReader : List DecodeItem → Except String (List Manifest)
  | [] => .ok []
  | .fail e :: _ => .error e
  | .doc none :: rest => readFromReader rest
  | .doc (some raw) :: rest =>
    let m := parseManifest raw
    match readFromReader rest with
    | .error e => .error e
    | .ok ms => .ok (if m.kind ≠ "" then m :: ms else ms)

/-- `isClusterScoped`: the fixed allow-list of cluster-scoped kinds. -/
def isClusterScoped (kind : String) : Bool :=
  ["Namespace", "Node", "PersistentVolume", "ClusterRole", "ClusterRoleBinding",
    "CustomResourceDefinition", "StorageClass", "PriorityClass"].contains kind

/-- `kindToResource`: the fixed kind-to-resource lookup table with the
lowercase-plus-`s` fallback. -/
def kindToResource (kind : String) : String :=
  match ([("Deployment", "deployments"), ("Service", "services"),
      ("ConfigMap", "configmaps"), ("Secret", "secrets"), ("Pod", "pods"),
      ("StatefulSet", "statefulsets"), ("DaemonSet", "daemonsets"),
      ("ReplicaSet", "replicasets"), ("Job", "jobs"), ("CronJob", "cronjobs"),
      ("Ingress", "ingresses"), ("ServiceAccount", "serviceaccounts"),
      ("Role", "roles"), ("RoleBinding", "rolebindings"),
      ("ClusterRole", "clusterroles"), ("ClusterRoleBinding", "clusterrolebindings"),
      ("PersistentVolumeClaim", "persistentvolumeclaims"),
      ("PersistentVolume", "persistentvolumes"), ("Namespace", "namespaces"),
      ("NetworkPolicy", "networkpolicies"),
      ("HorizontalPodAutoscaler", "horizontalpodautoscalers")].lookup kind) with
  | some resource => resource
  | none => kind.toLower ++ "s"

/-- `isSystemManagedField`: the fixed set of platform-managed field names. -/
def isSystemManagedField (field : String) : Bool :=
  ["resourceVersion", "uid", "creationTimestamp", "generation", "managedFields",
    "selfLink", "status", "clusterIP", "clusterIPs", "nodeName", "podIP",
    "podIPs", "hostIP"].contains field

/-- Split a character list on a separator character (the segments of Go's
`strings.Split` for a one-character separator). -/
def splitOnChar (sep : Char) : List Char → List (List Char)
  | [] => [[]]
  | c :: rest =>
    if c = sep then [] :: splitOnChar sep rest
    else
      match splitOnChar sep rest with
      | [] => [[c]]
      | seg :: segs => (c :: seg) :: segs

/-- `schema.ParseGroupVersion` (apimachinery): `""`/`"/"` parse to the empty
group-version, no slash means a bare version, one slash means group/version,
more slashes are an error. -/
def parseGroupVersion (gv : String) : Except String (String × String) :=
  if gv = "" || gv = "/" then .ok ("", "")
  else
    match splitOnChar '/' gv.data with
    | [v] => .ok ("", String.mk v)
    | [g, v] => .ok (String.mk g, String.mk v)
    | _ => .error ("unexpected GroupVersion string: " ++ gv)

/-- `GroupVersionResource`. -/
structure GVR where
  group : String
  version : String
  resource : String
  deriving Repr, DecidableEq

/-- `getGVR` (shared by the drift detector and the syncer): parse the
manifest's apiVersion and map its kind to a resource collection. -/
def getGVR (m : Manifest) : Except String GVR :=
  match parseGroupVersion m.apiVersion with
  | .error e => .error e
  | .ok (g, v) => .ok ⟨g, v, kindToResource m.kind⟩

/-- `DriftType`. -/
inductive DriftType where
  | missing
  | extra
  | modified
  deriving Repr, DecidableEq

/-- `DriftResult` from the drift detector. -/
structure DriftResult where
  cluster : String
  resourceKey : String
  kind : String
  namespace' : String
  name : String
  driftType : DriftType
  differences : List String
  gitValue : Option JObject
  clusterValue : Option JObject
  deriving Repr, DecidableEq

/-- `compareObjects`: recursive key-by-key comparison of the declared map
against the live map.  The order of checks follows the source: a declared key
absent from the live map is reported as missing *before* the system-managed
skip is consulted; a present system-managed key is skipped; nested maps
recurse; other values are compared with `reflect.DeepEqual`. -/
def compareObjects : String → JObject → JObject → List String
  | _, [], _ => []
  | path, (key, expectedVal) :: rest, actual =>
    let newPath := path ++ "." ++ key
    let entry : List String :=
      match actual.lookup key with
      | none => [newPath ++ ": missing in cluster"]
      | some actualVal =>
        if isSystemManagedField key then []
        else
          match expectedVal, actualVal with
          | .obj expectedMap, .obj actualMap =>
            compareObjects newPath expectedMap actualMap
          | .obj _, _ => [newPath ++ ": type mismatch"]
          | _, _ =>
            if expectedVal = actualVal then []
            else
              [newPath ++ ": " ++ jsonStr actualVal ++
                " (expected: " ++ jsonStr expectedVal ++ ")"]
    entry ++ compareObjects path rest actual

/-- `unstructured.NestedMap(obj, key)`: found only when the key is present and
holds a map. -/
def nestedMap (o : JObject) (key : String) : Option JObject :=
  match o.lookup key with
  | some (.obj m) => some m
  | _ => none

/-- `unstructured.NestedStringMap(obj, "metadata", "labels")`: the nested map
converted to a string map, empty when absent, not a map, or holding any
non-string value (the caller ignores the error and uses the nil map). -/
def nestedStringMapLabels (o : JObject) : List (String × String) :=
  match nestedMap o "metadata" with
  | none => []
  | some mm =>
    match mm.lookup "labels" with
    | some (.obj lm) =>
      if lm.all (fun kv => match kv.2 with | .str _ => true | _ => false) then
        stringEntries lm
      else []
    | _ => []

/-- `DriftDetector.compareManifests`: spec comparison (when declared), data
comparison (when declared), then unconditional label comparison. -/
def compareManifests (git : Manifest) (cluster : JObject) : List String :=
  let specDiffs : List String :=
    match git.spec with
    | none => []
    | some gitSpec =>
      match nestedMap cluster "spec" with
      | none => ["spec: missing in cluster"]
      | some clusterSpec => compareObjects "spec" gitSpec clusterSpec
  let dataDiffs : List String :=
    match git.data with
    | none => []
    | some gitData =>
      match nestedMap cluster "data" with
      | none => ["data: missing in cluster"]
      | some clusterData => compareObjects "data" gitData clusterData
  let labelDiffs : List String :=
    match git.metadata.labels with
    | none => []
    | some gitLabels =>
      let clusterLabels := nestedStringMapLabels cluster
      gitLabels.foldr (fun kv acc =>
        match clusterLabels.lookup kv.1 with
        | none =>
          ("label " ++ kv.1 ++ ": missing in cluster (expected: " ++ kv.2 ++ ")") :: acc
        | some cv =>
          if cv ≠ kv.2 then
            ("label " ++ kv.1 ++ ": " ++ cv ++ " (expected: " ++ kv.2 ++ ")") :: acc
          else acc) []
  specDiffs ++ dataDiffs ++ labelDiffs

/-- `DriftDetector.checkResource`: resolve the GVR, fetch the live object via
the (namespaced or cluster-scoped) dynamic client — modelled by the `getLive`
oracle — and classify: any fetch error becomes a Missing drift with the fixed
single difference text; otherwise field differences become a Modified drift;
no differences means no drift. -/
def checkResource (getLive : GVR → Option String → String → Except String JObject)
    (m : Manifest) (clusterName : String) : Except String (Option DriftResult) :=
  match getGVR m with
  | .error e => .error e
  | .ok gvr =>
    let ns := m.getNamespace
    let fetch : Except String JObject :=
      if ns ≠ "" && !isClusterScoped m.kind then getLive gvr (some ns) m.metadata.name
      else getLive gvr none m.metadata.name
    match fetch with
    | .error _ =>
      .ok (some ⟨clusterName, m.getKey.render, m.kind, ns, m.metadata.name,
        .missing, ["Resource does not exist in cluster"], some m.raw, none⟩)
    | .ok current =>
      let differences := compareManifests m current
      if differences.length > 0 then
        .ok (some ⟨clusterName, m.getKey.render, m.kind, ns, m.metadata.name,
          .modified, differences, some m.raw, some current⟩)
      else
        .ok none

/-- Replace-or-append insertion into the `expected` key map that `DetectDrift`
builds (`expected[key] = m`; later manifests with the same key replace earlier
ones). -/
def insertExpected (l : List (String × Manifest)) (key : String) (m : Manifest) :
    List (String × Manifest) :=
  if l.any (fun kv => kv.1 = key) then
    l.map (fun kv => if kv.1 = key then (key, m) else kv)
  else
    l ++ [(key, m)]

/-- `DriftDetector.DetectDrift`: deduplicate manifests by identity key, then
check each remaining resource; an error from `checkResource` (a GVR-parse
failure) is recorded as a Missing drift carrying the error text. -/
def detectDrift (getLive : GVR → Option String → String → Except String JObject)
    (manifests : List Manifest) (clusterName : String) : List DriftResult :=
  let expected := manifests.foldl (fun acc m => insertExpected acc m.getKey.render m) []
  expected.foldl (fun drifts kv =>
    let key := kv.1
    let m := kv.2
    match checkResource getLive m clusterName with
    | .error e =>
      drifts ++ [⟨clusterName, key, m.kind, m.getNamespace, m.metadata.name,
        .missing, ["Error checking resource: " ++ e], none, none⟩]
    | .ok none => drifts
    | .ok (some d) => drifts ++ [d]) []

/-- Replace-or-append upsert into a dynamic object map. -/
def upsertKey (o : JObject) (k : String) (v : JValue) : JObject :=
  if o.any (fun kv => kv.1 = k) then
    o.map (fun kv => if kv.1 = k then (k, v) else kv)
  else o ++ [(k, v)]

/-- `unstructured.SetNamespace` on the raw object: upsert
`metadata.namespace`. -/
def setNamespace (o : JObject) (ns : String) : JObject :=
  let mm := match o.lookup "metadata" with | some (.obj m) => m | _ => []
  upsertKey o "metadata" (.obj (upsertKey mm "namespace" (.str ns)))

/-- `unstructured.GetResourceVersion`: `metadata.resourceVersion` as a string,
`""` when absent. -/
def getResourceVersion (o : JObject) : String :=
  match nestedMap o "metadata" with
  | some mm => match mm.lookup "resourceVersion" with | some (.str s) => s | _ => ""
  | none => ""

/-- `unstructured.GetUID` as a string, `""` when absent. -/
def getUID (o : JObject) : String :=
  match nestedMap o "metadata" with
  | some mm => match mm.lookup "uid" with | some (.str s) => s | _ => ""
  | none => ""

/-- `SyncAction`. -/
inductive SyncAction where
  | created
  | updated
  | unchanged
  | skipped
  | failed
  deriving Repr, DecidableEq

/-- `SyncResult` for one resource. -/
structure SyncResult where
  cluster : String
  kind : String
  name : String
  namespace' : String
  action : SyncAction
  message : String
  deriving Repr, DecidableEq

/-- `SyncSummary` for one cluster. -/
structure SyncSummary where
  cluster : String
  created : Nat
  updated : Nat
  unchanged : Nat
  failed : Nat
  skipped : Nat
  results : List SyncResult
  deriving Repr, DecidableEq

/-- `SyncOptions`. -/
structure SyncOptions where
  dryRun : Bool
  prune : Bool
  namespace' : String
  include' : List String
  exclude : List String
  deriving Repr, DecidableEq

/-- The identity a live object is stored under by the dynamic client: GVR,
optional namespace, name. -/
abbrev SyncKey := GVR × Option String × String

/-- The live objects of one cluster, keyed by `SyncKey` (the dynamic client's
`Get` succeeds exactly on the stored keys). -/
abbrev ClusterState := List (SyncKey × JObject)

/-- `Syncer.shouldSync`: excludes first, then the include list (when
non-empty) must name the kind. -/
def shouldSync (kind : String) (opts : SyncOptions) : Bool :=
  if opts.exclude.any (fun e => e = kind) then false
  else if opts.include'.length > 0 then opts.include'.any (fun i => i = kind)
  else true

/-- The key a manifest's live object is addressed under: the namespaced
dynamic client is used unless the kind is cluster-scoped. -/
def syncKeyFor (gvr : GVR) (m : Manifest) (ns : String) : SyncKey :=
  if isClusterScoped m.kind then (gvr, none, m.metadata.name)
  else (gvr, some ns, m.metadata.name)

/-- `Syncer.syncResource`, with the dynamic client's mutating calls as the
`apiCreate`/`apiPatch` oracles (each returns the server's resulting object and
the new cluster state) and `Get` as a lookup in the cluster state.  Dry-run
returns before any mutating call. -/
def syncResource
    (apiCreate apiPatch : SyncKey → JObject → ClusterState →
      Except String (JObject × ClusterState))
    (m : Manifest) (ns : String) (dryRun : Bool) (st : ClusterState) :
    Except String SyncResult × ClusterState :=
  match getGVR m with
  | .error e => (.error ("failed to get GVR: " ++ e), st)
  | .ok gvr =>
    let obj := if !isClusterScoped m.kind && ns ≠ "" then setNamespace m.raw ns else m.raw
    let key : SyncKey := syncKeyFor gvr m ns
    match st.lookup key with
    | none =>
      if dryRun then
        (.ok ⟨"", m.kind, m.metadata.name, ns, .created, "Would create (dry-run)"⟩, st)
      else
        match apiCreate key obj st with
        | .error e => (.error ("failed to create: " ++ e), st)
        | .ok (createdObj, st') =>
          (.ok ⟨"", m.kind, m.metadata.name, ns, .created,
            "Created " ++ getUID createdObj⟩, st')
    | some existing =>
      if dryRun then
        (.ok ⟨"", m.kind, m.metadata.name, ns, .updated, "Would update (dry-run)"⟩, st)
      else
        match apiPatch key obj st with
        | .error e => (.error ("failed to update: " ++ e), st)
        | .ok (updatedObj, st') =>
          if getResourceVersion existing = getResourceVersion updatedObj then
            (.ok ⟨"", m.kind, m.metadata.name, ns, .unchanged, "No changes"⟩, st')
          else
            (.ok ⟨"", m.kind, m.metadata.name, ns, .updated,
              "Updated (rv: " ++ getResourceVersion existing ++ " -> " ++
                getResourceVersion updatedObj ++ ")"⟩, st')

/-- The per-manifest step of `Syncer.Sync`: filter by kind, apply the
namespace override, sync the resource, and tally the outcome; a failed
resource is recorded and processing continues. -/
def syncStep
    (apiCreate apiPatch : SyncKey → JObject → ClusterState →
      Except String (JObject × ClusterState))
    (clusterName : String) (opts : SyncOptions)
    (acc : SyncSummary × ClusterState) (m : Manifest) :
    SyncSummary × ClusterState :=
  let summary := acc.1
  let state := acc.2
  if !shouldSync m.kind opts then
      ({ summary with
          skipped := summary.skipped + 1,
          results := summary.results ++
            [⟨clusterName, m.kind, m.metadata.name, m.getNamespace, .skipped,
              "Kind excluded from sync"⟩] }, state)
    else
      let ns :=
        if opts.namespace' ≠ "" && !isClusterScoped m.kind then opts.namespace'
        else m.getNamespace
      match syncResource apiCreate apiPatch m ns opts.dryRun state with
      | (.error e, state') =>
        ({ summary with
            failed := summary.failed + 1,
            results := summary.results ++
              [⟨clusterName, m.kind, m.metadata.name, ns, .failed, e⟩] }, state')
      | (.ok r, state') =>
        let r' := { r with cluster := clusterName }
        let summary' := { summary with results := summary.results ++ [r'] }
        (match r'.action with
          | .created => { summary' with created := summary'.created + 1 }
          | .updated => { summary' with updated := summary'.updated + 1 }
          | .unchanged => { summary' with unchanged := summary'.unchanged + 1 }
          | _ => summary', state')

/-- `Syncer.Sync`: run `syncStep` over the manifests in declaration order,
starting from the empty per-cluster summary. -/
def sync
    (apiCreate apiPatch : SyncKey → JObject → ClusterState →
      Except String (JObject × ClusterState))
    (manifests : List Manifest) (clusterName : String) (opts : SyncOptions)
    (st : ClusterState) : SyncSummary × ClusterState :=
  manifests.foldl (syncStep apiCreate apiPatch clusterName opts)
    (⟨clusterName, 0, 0, 0, 0, 0, []⟩, st)

/-! ## Concrete fixtures used by witnesses and counterexamples -/

/-- Example handle constructor that fails for cluster `"b"`. -/
def exGetClient1 : String → Except String Unit :=
  fun n => if n = "b" then .error "no context named b" else .ok ()

/-- Example operation that fails on cluster `"c"`. -/
def exFn1 : Unit → String → Except String Nat :=
  fun _ n => if n = "c" then .error "boom" else .ok 7

/-- Example completion order for three workers (last worker finishes first). -/
def exOrder1 : List (Fin 3) := [2, 1, 0]

/-! ## Theorems -/

/-- C1: `ExecuteOnSelected` over an explicit list of N cluster names returns
exactly N `ClusterResult`s in some completion order — one per input name,
each the deterministic per-name outcome — and a handle-construction or
operation failure for one name is captured in that name's result (error
string) while every other name's result is the same as it would be alone. -/
theorem executeOnSelected_one_result_per_requested_cluster
    {κ α : Type} (getClient : String → Except String κ)
    (fn : κ → String → Except String α) (names : List String)
    (order : List (Fin names.length))
    (h : order.Perm (List.finRange names.length)) :
    (executeOnSelected getClient fn names order).length = names.length ∧
    (executeOnSelected getClient fn names order).Perm
      (names.map (mkResult getClient fn)) ∧
    (∀ name e, getClient name = .error e →
      mkResult getClient fn name = ⟨name, none, e⟩) ∧
    (∀ name c e, getClient name = .ok c → fn c name = .error e →
      mkResult getClient fn name = ⟨name, none, e⟩) ∧
    (∀ name c v, getClient name = .ok c → fn c name = .ok v →
      mkResult getClient fn name = ⟨name, some v, ""⟩) := by
  refine ⟨?_, ?_, ?_, ?_, ?_⟩
  · simp [executeOnSelected, h.length_eq]
  · have hperm := h.map (fun i => mkResult getClient fn (names.get i))
    have : (List.finRange names.length).map
        (fun i => mkResult getClient fn (names.get i)) =
        names.map (mkResult getClient fn) := by
      rw [show (fun i => mkResult getClient fn (names.get i)) =
        (mkResult getClient fn) ∘ names.get from rfl, ← List.map_map,
        List.finRange_map_get]
    rw [this] at hperm
    exact hperm
  · intro name e hge
    simp [mkResult, hge]
  · intro name c e hgc hfe
    simp [mkResult, hgc, hfe]
  · intro name c v hgc hfv
    simp [mkResult, hgc, hfv]

/-- C1 witness: three requested clusters, `"b"` failing handle construction
and `"c"` failing the operation, completion order reversed. -/
theorem executeOnSelected_one_result_per_requested_cluster_witness :
    (executeOnSelected exGetClient1 exFn1 ["a", "b", "c"] exOrder1).length =
      ["a", "b", "c"].length ∧
    (executeOnSelected exGetClient1 exFn1 ["a", "b", "c"] exOrder1).Perm
      (["a", "b", "c"].map (mkResult exGetClient1 exFn1)) ∧
    (∀ name e, exGetClient1 name = .error e →
      mkResult exGetClient1 exFn1 name = ⟨name, none, e⟩) ∧
    (∀ name c e, exGetClient1 name = .ok c → exFn1 c name = .error e →
      mkResult exGetClient1 exFn1 name = ⟨name, none, e⟩) ∧
    (∀ name c v, exGetClient1 name = .ok c → exFn1 c name = .ok v →
      mkResult exGetClient1 exFn1 name = ⟨name, some v, ""⟩) :=
  executeOnSelected_one_result_per_requested_cluster exGetClient1 exFn1
    ["a", "b", "c"] exOrder1 (by decide)

/-- A single healthy example cluster for selector runs. -/
def c4Clusters : List ClusterInfo := [⟨"c1", "https://c1.example", true⟩]

/-- Handle construction that always succeeds. -/
def c4GetClient : String → Except String Unit := fun _ => .ok ()

/-- Capabilities of the example cluster: 2 CPUs, 4Gi memory, no GPUs. -/
def c4Cap : ClusterCapabilities := ⟨"c1", 1, 1, "2", "4Gi", "2", "4Gi", [], []⟩

/-- Capability query returning `c4Cap`. -/
def c4Fn : Unit → String → Except String ClusterCapabilities := fun _ _ => .ok c4Cap

/-- Completion order for the single worker. -/
def c4Order : List (Fin (c4Clusters.map ClusterInfo.name).length) := [⟨0, by decide⟩]

/-- Requirements whose CPU and memory minimums are malformed quantity
strings. -/
def c4Req : WorkloadRequirements := ⟨"notanumber", "notanumber", "", 0, []⟩

/-- C4 counterexample: with malformed `minCPU`/`minMemory` requirement strings
the selection predicate holds and the cluster is *included* in
`FindClustersForWorkload`'s result — the claim says it must be excluded. -/
theorem malformed_requirement_admits_cluster_counterexample :
    parseQuantity "notanumber" = .error "unable to parse quantity's suffix" ∧
    clusterMeetsRequirements c4Cap c4Req = true ∧
    findClustersForWorkload c4GetClient c4Fn c4Clusters c4Order c4Req = ["c1"] := by
  refine ⟨by decide, by decide, by decide⟩

/-- C4 amended: a requirement whose `minCPU`/`minMemory` fails to parse causes
that check to be skipped — the cluster is admitted on that clause (fail
open) — whereas a well-formed requirement compared against a cluster whose
capability string fails to parse excludes the cluster (fail closed). -/
theorem clusterMeetsRequirements_malformed_quantity_behaviour :
    (∀ (cap : ClusterCapabilities) (req : WorkloadRequirements) (e1 e2 : String),
      parseQuantity req.minCPU = .error e1 →
      parseQuantity req.minMemory = .error e2 →
      req.gpuType = "" → req.minGPU ≤ 0 → req.nodeLabels = [] →
      clusterMeetsRequirements cap req = true) ∧
    (∀ (cap : ClusterCapabilities) (req : WorkloadRequirements) (q : Quantity)
        (e : String),
      parseQuantity req.minCPU = .ok q →
      parseQuantity cap.allocatableCPU = .error e →
      clusterMeetsRequirements cap req = false) := by
  constructor
  · intro cap req e1 e2 hcpu hmem hgpu hmin hlab
    have hnotlt : ¬ (0 < req.minGPU) := by omega
    by_cases hc : req.minCPU = "" <;> by_cases hm : req.minMemory = "" <;>
      simp [clusterMeetsRequirements, hgpu, hnotlt, hlab, hc, hm, hcpu, hmem]
  · intro cap req q e hok herr
    have hne : ¬ (req.minCPU = "") := by
      intro hempty
      rw [hempty,
        show parseQuantity "" = Except.error "unable to parse quantity's suffix"
          from by decide] at hok
      exact Except.noConfusion hok
    simp [clusterMeetsRequirements, hne, hok, herr]

/-- C4 amended witness: the malformed-requirement case admits the example
cluster; a well-formed `minCPU` of `"1"` against a malformed capability string
excludes it. -/
theorem clusterMeetsRequirements_malformed_quantity_behaviour_witness :
    clusterMeetsRequirements c4Cap c4Req = true ∧
    clusterMeetsRequirements ⟨"c1", 1, 1, "2", "4Gi", "junk", "4Gi", [], []⟩
      ⟨"1", "", "", 0, []⟩ = false :=
  ⟨clusterMeetsRequirements_malformed_quantity_behaviour.1 c4Cap c4Req
      "unable to parse quantity's suffix" "unable to parse quantity's suffix"
      (by decide) (by decide) rfl (by decide) rfl,
    clusterMeetsRequirements_malformed_quantity_behaviour.2 _ _ ⟨1, 1⟩
      "unable to parse quantity's suffix" (by decide) (by decide)⟩

/-- Cluster with one `nvidia.com/gpu` and four `amd.com/gpu`. -/
def c5Cap : ClusterCapabilities :=
  ⟨"gpu1", 1, 1, "2", "4Gi", "2", "4Gi",
    [⟨"nvidia.com/gpu", 1⟩, ⟨"amd.com/gpu", 4⟩], []⟩

/-- Requirement for two `nvidia.com/gpu`. -/
def c5Req : WorkloadRequirements := ⟨"", "", "nvidia.com/gpu", 2, []⟩

/-- Cluster with three `nvidia.com/gpu`, used for the witness. -/
def c5CapOk : ClusterCapabilities :=
  ⟨"gpu2", 1, 1, "2", "4Gi", "2", "4Gi", [⟨"nvidia.com/gpu", 3⟩], []⟩

/-- C5: with an accelerator type specified, selection requires that specific
type's count to meet `minGPU` (other types never contribute); with only a
positive `minGPU`, the sum across all types must meet it; and the spec's
concrete example — 1 nvidia + 4 amd against (nvidia, 2) — is excluded. -/
theorem gpu_requirement_type_specific :
    (∀ (cap : ClusterCapabilities) (req : WorkloadRequirements),
      req.gpuType ≠ "" → clusterMeetsRequirements cap req = true →
      ∃ g, g ∈ cap.gpus ∧ g.type = req.gpuType ∧ req.minGPU ≤ g.quantity) ∧
    (∀ (cap : ClusterCapabilities) (req : WorkloadRequirements),
      req.gpuType = "" → 0 < req.minGPU → clusterMeetsRequirements cap req = true →
      req.minGPU ≤ (cap.gpus.map GPUInfo.quantity).sum) ∧
    clusterMeetsRequirements c5Cap c5Req = false := by
  refine ⟨?_, ?_, by decide⟩
  · intro cap req hty hm
    simp only [clusterMeetsRequirements, Bool.and_eq_true] at hm
    obtain ⟨⟨⟨hgpu, _⟩, _⟩, _⟩ := hm
    rw [if_pos hty] at hgpu
    obtain ⟨g, hg, hpred⟩ := List.any_eq_true.mp hgpu
    simp only [Bool.and_eq_true] at hpred
    obtain ⟨hbeq, hle⟩ := hpred
    exact ⟨g, hg, eq_of_beq hbeq, of_decide_eq_true hle⟩
  · intro cap req hty hpos hm
    simp only [clusterMeetsRequirements, Bool.and_eq_true] at hm
    obtain ⟨⟨⟨hgpu, _⟩, _⟩, _⟩ := hm
    rw [if_neg (by simp [hty])] at hgpu
    simp only [decide_eq_true_eq, hpos, if_true] at hgpu
    exact hgpu

/-- C5 witness: a cluster with three nvidia GPUs passes the (nvidia, 2)
requirement, so the specific type's inventory entry meets the minimum. -/
theorem gpu_requirement_type_specific_witness :
    ∃ g, g ∈ c5CapOk.gpus ∧ g.type = c5Req.gpuType ∧ c5Req.minGPU ≤ g.quantity :=
  gpu_requirement_type_specific.1 c5CapOk c5Req (by decide) (by decide)

/-- The per-worker result always carries the requested cluster name. -/
theorem mkResult_cluster {κ α : Type} (getClient : String → Except String κ)
    (fn : κ → String → Except String α) (name : String) :
    (mkResult getClient fn name).cluster = name := by
  rcases hg : getClient name with e | c
  · simp [mkResult, hg]
  · rcases hf : fn c name with e | v <;> simp [mkResult, hg, hf]

/-- Two example clusters, the second of which is unreachable. -/
def c10Clusters : List ClusterInfo :=
  [⟨"up", "https://up.example", true⟩, ⟨"down", "https://down.example", false⟩]

/-- Handle construction failing for the unreachable cluster. -/
def c10GetClient : String → Except String Unit :=
  fun n => if n = "down" then .error "connect: connection refused" else .ok ()

/-- Capability query succeeding with a healthy record. -/
def c10Fn : Unit → String → Except String ClusterCapabilities :=
  fun _ n => .ok ⟨n, 1, 1, "2", "4Gi", "2", "4Gi", [], []⟩

/-- Completion order with the unreachable cluster's worker finishing first. -/
def c10Order : List (Fin (c10Clusters.map ClusterInfo.name).length) :=
  [⟨1, by decide⟩, ⟨0, by decide⟩]

/-- C10: a cluster whose capability query fails (handle construction or node
listing, any nonempty error text) still yields a `GetClusterCapabilities`
entry holding only its name with every other field zero-valued, and with
empty `WorkloadRequirements` that cluster is included in
`FindClustersForWorkload`'s result. -/
theorem failed_capability_query_yields_zero_entry_and_matches_empty_req
    {κ : Type} (getClient : String → Except String κ)
    (fn : κ → String → Except String ClusterCapabilities)
    (clusters : List ClusterInfo)
    (order : List (Fin (clusters.map ClusterInfo.name).length))
    (name : String)
    (hord : order.Perm (List.finRange (clusters.map ClusterInfo.name).length))
    (hmem : name ∈ clusters.map ClusterInfo.name)
    (hfail : (mkResult getClient fn name).error ≠ "") :
    emptyCapabilities name ∈ getClusterCapabilities getClient fn clusters order ∧
    name ∈ findClustersForWorkload getClient fn clusters order ⟨"", "", "", 0, []⟩ := by
  obtain ⟨i, hi⟩ := List.mem_iff_get.mp hmem
  have hres : mkResult getClient fn name ∈ executeAll getClient fn clusters order := by
    rw [executeAll, executeOnSelected]
    exact List.mem_map.mpr ⟨i, hord.mem_iff.mpr (List.mem_finRange i), by rw [hi]⟩
  have hcap : emptyCapabilities name ∈
      getClusterCapabilities getClient fn clusters order := by
    rw [getClusterCapabilities, show execute getClient fn "" clusters order =
      executeAll getClient fn clusters order from by simp [execute]]
    refine List.mem_filterMap.mpr ⟨mkResult getClient fn name, hres, ?_⟩
    rw [if_pos hfail, mkResult_cluster]
  refine ⟨hcap, ?_⟩
  rw [findClustersForWorkload]
  refine List.mem_map.mpr ⟨emptyCapabilities name, List.mem_filter.mpr ⟨hcap, rfl⟩, rfl⟩

/-- C10 witness: the unreachable cluster `"down"` appears as a zero-valued
entry and matches the empty requirements. -/
theorem failed_capability_query_yields_zero_entry_witness :
    emptyCapabilities "down" ∈
      getClusterCapabilities c10GetClient c10Fn c10Clusters c10Order ∧
    "down" ∈ findClustersForWorkload c10GetClient c10Fn c10Clusters c10Order
      ⟨"", "", "", 0, []⟩ :=
  failed_capability_query_yields_zero_entry_and_matches_empty_req
    c10GetClient c10Fn c10Clusters c10Order "down" (by decide) (by decide) (by decide)

/-- Cache invariant of the client manager: every name was successfully
constructed at most once, and a recorded construction implies a cache entry. -/
def CMInv {κ : Type} (st : CMState κ) : Prop :=
  ∀ n, st.constructions.count n ≤ 1 ∧
    (n ∈ st.constructions → (st.clients.lookup n).isSome)

/-- One atomic lock-protected section of one call preserves the cache
invariant: the read-locked lookup never mutates, and the write-locked section
re-checks under the same lock that protects the insert, so it constructs only
when the name is still absent. -/
theorem stepCall_preserves_inv {κ : Type} (mk : String → Except String κ)
    (cache : CMState κ) (call : CMCall) (h : CMInv cache) :
    CMInv (stepCall mk cache call).1 := by
  rcases call with ⟨name, phase⟩
  cases phase
  · rcases hl : cache.clients.lookup name with _ | c <;> simpa [stepCall, hl] using h
  · rcases hl : cache.clients.lookup name with _ | c
    · rcases hmk : mk name with e | c
      · simpa [stepCall, hl, hmk] using h
      · simp only [stepCall, hl, hmk]
        intro n
        have hnotmem : name ∉ cache.constructions := fun hmem => by
          have := (h name).2 hmem
          rw [hl] at this
          exact absurd this (by simp)
        by_cases hn : n = name
        · subst hn
          refine ⟨?_, fun _ => ?_⟩
          · simp [List.count_cons, List.count_eq_zero.mpr hnotmem]
          · simp [List.lookup]
        · refine ⟨?_, fun hmem => ?_⟩
          · simpa [List.count_cons, hn] using (h n).1
          · have hmem' : n ∈ cache.constructions := by
              rcases List.mem_cons.mp hmem with h1 | h1
              · exact absurd h1 hn
              · exact h1
            have := (h n).2 hmem'
            simpa [List.lookup,
              show (n == name) = false from beq_eq_false_iff_ne.mpr hn] using this
    · simpa [stepCall, hl] using h

/-- Every interleaving of the calls' atomic sections preserves the cache
invariant. -/
theorem runSchedule_preserves_inv {κ : Type} (mk : String → Except String κ) :
    ∀ (schedule : List Nat) (cache : CMState κ) (pool : List CMCall),
      CMInv cache → CMInv (runSchedule mk schedule cache pool) := by
  intro schedule
  induction schedule with
  | nil => intro cache pool h; exact h
  | cons i rest ih =>
    intro cache pool h
    rcases hp : pool[i]? with _ | call <;> simp only [runSchedule, hp]
    · exact ih cache pool h
    · exact ih _ _ (stepCall_preserves_inv mk cache call h)

/-- C9: under every interleaving of the atomic lock-protected sections of any
set of concurrent `GetClient` calls — including the race where several calls
for the same name all miss the optimistic read-locked lookup before any takes
the write lock — at most one client construction ever succeeds per cluster
name; and a call that finds a cached client for its name, in either its
read-locked or its write-locked (double-check) lookup, returns the stored
client and leaves the cache untouched. -/
theorem clientManager_constructs_at_most_once :
    (∀ (κ : Type) (mk : String → Except String κ) (names : List String)
        (schedule : List Nat) (name : String),
      (runSchedule mk schedule CMState.init
        (initialCalls names)).constructions.count name ≤ 1) ∧
    (∀ (κ : Type) (mk : String → Except String κ) (cache : CMState κ)
        (call : CMCall) (c : κ),
      cache.clients.lookup call.name = some c →
      stepCall mk cache call = (cache, none, some (.ok c))) := by
  constructor
  · intro κ mk names schedule name
    have hinit : CMInv (CMState.init : CMState κ) := by
      intro n
      exact ⟨by simp [CMState.init], fun hmem => absurd hmem (by simp [CMState.init])⟩
    exact (runSchedule_preserves_inv mk schedule CMState.init
      (initialCalls names) hinit name).1
  · intro κ mk cache call c hl
    rcases call with ⟨name, phase⟩
    cases phase <;> simp [stepCall, hl]

/-- C9 witness: two concurrent `GetClient "a"` calls under the racy schedule
`[0, 1, 0, 0]` — both optimistic lookups miss before either write-locked
section runs — still construct `"a"` only once, and a call that finds a
cached client returns it unchanged. -/
theorem clientManager_constructs_at_most_once_witness :
    (runSchedule (fun _ => Except.ok (0 : Nat)) [0, 1, 0, 0] CMState.init
      (initialCalls ["a", "a"])).constructions.count "a" ≤ 1 ∧
    stepCall (fun _ => Except.ok (0 : Nat)) (⟨[("a", 5)], ["a"]⟩ : CMState Nat)
      ⟨"a", .start⟩ =
      ((⟨[("a", 5)], ["a"]⟩ : CMState Nat), none, some (.ok 5)) :=
  ⟨clientManager_constructs_at_most_once.1 Nat (fun _ => Except.ok (0 : Nat))
      ["a", "a"] [0, 1, 0, 0] "a",
    clientManager_constructs_at_most_once.2 Nat (fun _ => Except.ok (0 : Nat))
      ⟨[("a", 5)], ["a"]⟩ ⟨"a", .start⟩ 5 (by decide)⟩

/-- Counterfactual foil — NOT a function of the source: the write-locked
section with the double-check lookup removed, constructing unconditionally
after a read miss.  It exists only to show the interleaving model represents
the check-then-act race: under the schedule where both calls miss their
optimistic lookup first, this variant constructs twice (see
`double_check_is_load_bearing`), while the faithful `stepCall` constructs
once. -/
def stepCallSingleChecked {κ : Type} (mk : String → Except String κ)
    (cache : CMState κ) (call : CMCall) :
    CMState κ × Option CMCall × Option (Except String κ) :=
  match call.phase with
  | .start =>
    match cache.clients.lookup call.name with
    | some client => (cache, none, some (.ok client))
    | none => (cache, some ⟨call.name, .beforeWrite⟩, none)
  | .beforeWrite =>
    match mk call.name with
    | .error e => (cache, none, some (.error e))
    | .ok client =>
      (⟨(call.name, client) :: cache.clients, call.name :: cache.constructions⟩,
        none, some (.ok client))

/-- Scheduler for the single-checked foil, interleaving exactly as
`runSchedule` does. -/
def runScheduleSingleChecked {κ : Type} (mk : String → Except String κ) :
    List Nat → CMState κ → List CMCall → CMState κ
  | [], cache, _ => cache
  | i :: rest, cache, pool =>
    match pool[i]? with
    | none => runScheduleSingleChecked mk rest cache pool
    | some call =>
      let step := stepCallSingleChecked mk cache call
      let pool' :=
        match step.2.1 with
        | some pending => pool.set i pending
        | none => pool.eraseIdx i
      runScheduleSingleChecked mk rest step.1 pool'

/-- The double-check is load-bearing in the interleaving model: under the
racy schedule (both optimistic lookups miss before either write-locked
section), the single-checked foil constructs the client twice while the
faithful double-checked code constructs it once. -/
theorem double_check_is_load_bearing :
    (runScheduleSingleChecked (fun _ => Except.ok (0 : Nat)) [0, 1, 0, 0]
      CMState.init (initialCalls ["a", "a"])).constructions.count "a" = 2 ∧
    (runSchedule (fun _ => Except.ok (0 : Nat)) [0, 1, 0, 0]
      CMState.init (initialCalls ["a", "a"])).constructions.count "a" = 1 :=
  ⟨by decide, by decide⟩

/-- C2 counterexample: `clusterIP` is in the system-managed set, yet when it
is present in the declared map and absent from the live map the comparator
reports a difference for it — the existence check runs before the
system-managed skip. -/
theorem system_field_missing_in_live_is_reported_counterexample :
    isSystemManagedField "clusterIP" = true ∧
    compareObjects "spec" [("clusterIP", .str "10.0.0.1")] [] =
      ["spec.clusterIP: missing in cluster"] := by
  refine ⟨by decide, ?_⟩
  simp only [compareObjects, List.lookup]
  decide

/-- C2 amended: the system-managed-field exclusion applies exactly when the
key is present in the live map — a declared system-managed key whose live
counterpart exists contributes nothing to the difference list (removing it
from the declared map changes nothing); when the live map lacks the key, the
comparator still reports it as missing (see the counterexample). -/
theorem compareObjects_skips_system_fields_present_in_live
    (d : JObject) (path : String) (l : JObject) (key : String)
    (hsys : isSystemManagedField key = true)
    (hl : (l.lookup key).isSome) :
    compareObjects path d l =
      compareObjects path (d.filter (fun kv => kv.1 != key)) l := by
  induction d generalizing path with
  | nil => rfl
  | cons hd rest ih =>
    obtain ⟨k, v⟩ := hd
    by_cases hk : k = key
    · subst hk
      obtain ⟨av, hav⟩ := Option.isSome_iff_exists.mp hl
      rw [List.filter_cons_of_neg (by simp)]
      simp only [compareObjects, hav, hsys, if_true, List.nil_append]
      exact ih path
    · rw [List.filter_cons_of_pos (by simpa using hk)]
      simp only [compareObjects]
      rw [ih path]

/-- C2 amended witness: with `clusterIP` present in both maps, the comparison
result equals the comparison without the declared `clusterIP` entry. -/
theorem compareObjects_skips_system_fields_present_in_live_witness :
    compareObjects "spec"
        [("clusterIP", .str "10.0.0.1"), ("replicas", .num 2)]
        [("clusterIP", .str "10.9.9.9"), ("replicas", .num 2)] =
      compareObjects "spec"
        ([("clusterIP", .str "10.0.0.1"), ("replicas", .num 2)].filter
          (fun kv => kv.1 != "clusterIP"))
        [("clusterIP", .str "10.9.9.9"), ("replicas", .num 2)] :=
  compareObjects_skips_system_fields_present_in_live
    [("clusterIP", .str "10.0.0.1"), ("replicas", .num 2)] "spec"
    [("clusterIP", .str "10.9.9.9"), ("replicas", .num 2)] "clusterIP"
    (by decide) (by decide)

/-- Example declared Deployment manifest. -/
def c3Manifest : Manifest := parseManifest
  [("apiVersion", .str "apps/v1"), ("kind", .str "Deployment"),
    ("metadata", .obj [("name", .str "web"), ("namespace", .str "default")]),
    ("spec", .obj [("replicas", .num 2)])]

/-- Live fetch failing with a transient (non-not-found) error. -/
def c3GetLive : GVR → Option String → String → Except String JObject :=
  fun _ _ _ => .error "connection refused"

/-- C3 counterexample: a transient fetch failure (`connection refused`) is
classified Missing with the single fixed difference text `Resource does not
exist in cluster`, which does not contain the fetch error's text — the claim
says the entry contains the error text. -/
theorem fetch_error_text_not_propagated_counterexample :
    detectDrift c3GetLive [c3Manifest] "c1" =
      [⟨"c1", "apps/v1/Deployment/default/web", "Deployment", "default", "web",
        .missing, ["Resource does not exist in cluster"], some c3Manifest.raw, none⟩] ∧
    ¬ ("connection refused".data <:+:
        "Resource does not exist in cluster".data) :=
  ⟨by decide, by decide⟩

/-- C3 amended: every failed live fetch — not-found or any other error —
produces a Missing drift whose difference list is exactly the one fixed entry
`Resource does not exist in cluster` (the fetch error's text is not
propagated; only a GVR-parse failure would carry error text). -/
theorem fetch_error_becomes_missing_with_fixed_text
    (getLive : GVR → Option String → String → Except String JObject)
    (m : Manifest) (cluster : String) (gvr : GVR) (e : String)
    (hg : getGVR m = .ok gvr)
    (hf : (if m.getNamespace ≠ "" && !isClusterScoped m.kind
        then getLive gvr (some m.getNamespace) m.metadata.name
        else getLive gvr none m.metadata.name) = .error e) :
    detectDrift getLive [m] cluster =
      [⟨cluster, m.getKey.render, m.kind, m.getNamespace, m.metadata.name,
        .missing, ["Resource does not exist in cluster"], some m.raw, none⟩] := by
  have hstep : checkResource getLive m cluster =
      .ok (some ⟨cluster, m.getKey.render, m.kind, m.getNamespace,
        m.metadata.name, .missing, ["Resource does not exist in cluster"],
        some m.raw, none⟩) := by
    simp only [checkResource, hg]
    rw [hf]
  simp [detectDrift, insertExpected, hstep]

/-- C3 amended witness: the example manifest against the failing fetch yields
exactly the fixed-text Missing drift. -/
theorem fetch_error_becomes_missing_with_fixed_text_witness :
    detectDrift c3GetLive [c3Manifest] "c2" =
      [⟨"c2", c3Manifest.getKey.render, c3Manifest.kind, c3Manifest.getNamespace,
        c3Manifest.metadata.name, .missing,
        ["Resource does not exist in cluster"], some c3Manifest.raw, none⟩] :=
  fetch_error_becomes_missing_with_fixed_text c3GetLive c3Manifest "c2"
    ⟨"apps", "v1", "deployments"⟩ "connection refused" (by decide) (by decide)

/-- A well-formed ConfigMap document. -/
def c6GoodRaw : JObject :=
  [("apiVersion", .str "v1"), ("kind", .str "ConfigMap"),
    ("metadata", .obj [("name", .str "cm1")])]

/-- A decoded document without a `kind` field. -/
def c6NoKindRaw : JObject := [("foo", .str "bar")]

/-- C6 counterexample: a document that fails to decode makes `ReadFromReader`
return its error, losing the well-formed document after it — it is not
skipped. -/
theorem decode_error_aborts_batch_counterexample :
    readFromReader [.fail "yaml: could not find expected key",
      .doc (some c6GoodRaw)] = .error "yaml: could not find expected key" ∧
    readFromReader [.doc (some c6GoodRaw)] = .ok [parseManifest c6GoodRaw] :=
  ⟨by decide, by decide⟩

/-- C6 amended: a document that decodes to null, or decodes successfully but
lacks a `kind`, is skipped without affecting the remaining documents; a
document that cannot be decoded aborts the whole batch with its error. -/
theorem reader_skips_kindless_but_decode_errors_are_fatal :
    (∀ (rest : List DecodeItem) (raw : JObject), (parseManifest raw).kind = "" →
      readFromReader (.doc (some raw) :: rest) = readFromReader rest) ∧
    (∀ rest : List DecodeItem,
      readFromReader (.doc none :: rest) = readFromReader rest) ∧
    (∀ (rest : List DecodeItem) (e : String),
      readFromReader (.fail e :: rest) = .error e) := by
  refine ⟨?_, fun rest => rfl, fun rest e => rfl⟩
  intro rest raw hk
  cases h : readFromReader rest <;> simp [readFromReader, hk, h]

/-- C6 amended witness: a kindless document, a null document, and a failing
document ahead of the good ConfigMap document. -/
theorem reader_skips_kindless_but_decode_errors_are_fatal_witness :
    readFromReader [.doc (some c6NoKindRaw), .doc (some c6GoodRaw)] =
      readFromReader [.doc (some c6GoodRaw)] ∧
    readFromReader [.doc none, .doc (some c6GoodRaw)] =
      readFromReader [.doc (some c6GoodRaw)] ∧
    readFromReader [.fail "yaml: bad stream", .doc (some c6GoodRaw)] =
      .error "yaml: bad stream" :=
  ⟨reader_skips_kindless_but_decode_errors_are_fatal.1 _ c6NoKindRaw (by decide),
    reader_skips_kindless_but_decode_errors_are_fatal.2.1 _,
    reader_skips_kindless_but_decode_errors_are_fatal.2.2 _ _⟩

/-- Example declared ConfigMap manifest for duplicate-identity runs. -/
def c7Manifest : Manifest := parseManifest
  [("apiVersion", .str "v1"), ("kind", .str "ConfigMap"),
    ("metadata", .obj [("name", .str "cm1"), ("namespace", .str "default")]),
    ("data", .obj [("k", .str "v")])]

/-- Live fetch reporting absence. -/
def c7GetLive : GVR → Option String → String → Except String JObject :=
  fun _ _ _ => .error "configmaps \x22cm1\x22 not found"

/-- Trivial mutating oracle (never reached in dry-run). -/
def c7Api : SyncKey → JObject → ClusterState → Except String (JObject × ClusterState) :=
  fun _ o st => .ok (o, st)

/-- One `syncStep` always appends exactly one result. -/
theorem syncStep_results_length
    (aC aP : SyncKey → JObject → ClusterState →
      Except String (JObject × ClusterState))
    (c : String) (opts : SyncOptions) (acc : SyncSummary × ClusterState)
    (m : Manifest) :
    ((syncStep aC aP c opts acc m).1).results.length = acc.1.results.length + 1 := by
  unfold syncStep
  by_cases hs : shouldSync m.kind opts
  · simp only [hs, Bool.not_true, Bool.false_eq_true, if_false]
    rcases hres : syncResource aC aP m
      (if opts.namespace' ≠ "" && !isClusterScoped m.kind then opts.namespace'
        else m.getNamespace) opts.dryRun acc.2 with ⟨res, st'⟩
    rcases res with e | r
    · simp [hres]
    · rcases r with ⟨rc, rk, rn, rns, ract, rmsg⟩
      cases ract <;> simp [hres]
  · simp [hs]

/-- C7 counterexample: two manifests with the identical identity key are
checked once by the Drift Detector but processed twice by the Syncer (two
results, two would-create classifications in a dry run). -/
theorem duplicate_identity_not_deduplicated_by_syncer_counterexample :
    (detectDrift c7GetLive [c7Manifest, c7Manifest] "c1").length = 1 ∧
    ((sync c7Api c7Api [c7Manifest, c7Manifest] "c1"
      ⟨true, false, "", [], []⟩ []).1).results.length = 2 ∧
    ((sync c7Api c7Api [c7Manifest, c7Manifest] "c1"
      ⟨true, false, "", [], []⟩ []).1).created = 2 :=
  ⟨by decide, by decide, by decide⟩

/-- C7 amended: the Drift Detector deduplicates manifests by identity key
(a later duplicate replaces the earlier one, so one check per key), while the
Syncer processes every manifest document — one result per document, not per
identity key. -/
theorem drift_dedups_by_key_sync_processes_each_document :
    (∀ (g : GVR → Option String → String → Except String JObject) (c : String)
        (m1 m2 : Manifest), m1.getKey = m2.getKey →
      detectDrift g [m1, m2] c = detectDrift g [m2] c) ∧
    (∀ (aC aP : SyncKey → JObject → ClusterState →
        Except String (JObject × ClusterState))
        (ms : List Manifest) (c : String) (opts : SyncOptions)
        (st : ClusterState),
      ((sync aC aP ms c opts st).1).results.length = ms.length) := by
  constructor
  · intro g c m1 m2 hk
    have hr : m1.getKey.render = m2.getKey.render := by rw [hk]
    unfold detectDrift
    simp [insertExpected, hr]
  · intro aC aP ms c opts st
    have haux : ∀ (l : List Manifest) (acc : SyncSummary × ClusterState),
        ((l.foldl (syncStep aC aP c opts) acc).1).results.length =
          acc.1.results.length + l.length := by
      intro l
      induction l with
      | nil => intro acc; simp
      | cons hd tl ih =>
        intro acc
        rw [List.foldl_cons, ih, syncStep_results_length]
        simp only [List.length_cons]
        omega
    rw [sync, haux]
    simp

/-- C7 amended witness: the duplicate pair collapses for drift detection, and
a three-document sync returns three results. -/
theorem drift_dedups_by_key_sync_processes_each_document_witness :
    detectDrift c7GetLive [c7Manifest, c7Manifest] "c1" =
      detectDrift c7GetLive [c7Manifest] "c1" ∧
    ((sync c7Api c7Api [c7Manifest, c7Manifest, c7Manifest] "c1"
      ⟨true, false, "", [], []⟩ []).1).results.length = 3 :=
  ⟨drift_dedups_by_key_sync_processes_each_document.1 c7GetLive "c1"
      c7Manifest c7Manifest rfl,
    drift_dedups_by_key_sync_processes_each_document.2 c7Api c7Api
      [c7Manifest, c7Manifest, c7Manifest] "c1" ⟨true, false, "", [], []⟩ []⟩

/-- Example declared Deployment manifest for sync runs. -/
def c8Manifest : Manifest := parseManifest
  [("apiVersion", .str "apps/v1"), ("kind", .str "Deployment"),
    ("metadata", .obj [("name", .str "web"), ("namespace", .str "default")]),
    ("spec", .obj [("replicas", .num 2)])]

/-- Manifest whose apiVersion does not parse as a group/version. -/
def c8BadManifest : Manifest := parseManifest
  [("apiVersion", .str "a/b/c"), ("kind", .str "Deployment"),
    ("metadata", .obj [("name", .str "web")])]

/-- Mutating oracle that stores the object. -/
def c8Api : SyncKey → JObject → ClusterState → Except String (JObject × ClusterState) :=
  fun k o st => .ok (o, st ++ [(k, o)])

/-- Mutating oracle that always fails, to witness oracle independence. -/
def c8ApiAlt : SyncKey → JObject → ClusterState → Except String (JObject × ClusterState) :=
  fun _ _ _ => .error "server unavailable"

/-- A dry-run `syncResource` never consults the mutating oracles and leaves
the cluster state unchanged. -/
theorem syncResource_dryRun_frame
    (aC aP aC' aP' : SyncKey → JObject → ClusterState →
      Except String (JObject × ClusterState))
    (m : Manifest) (ns : String) (st : ClusterState) :
    syncResource aC aP m ns true st = syncResource aC' aP' m ns true st ∧
    (syncResource aC aP m ns true st).2 = st := by
  rcases hg : getGVR m with e | gvr
  · simp [syncResource, hg]
  · rcases hl : st.lookup (syncKeyFor gvr m ns) with _ | ex <;>
      simp [syncResource, hg, hl]

/-- A dry-run `syncStep` never consults the mutating oracles and leaves the
cluster state unchanged. -/
theorem syncStep_dryRun_frame
    (aC aP aC' aP' : SyncKey → JObject → ClusterState →
      Except String (JObject × ClusterState))
    (c : String) (opts : SyncOptions) (acc : SyncSummary × ClusterState)
    (m : Manifest) (h : opts.dryRun = true) :
    syncStep aC aP c opts acc m = syncStep aC' aP' c opts acc m ∧
    (syncStep aC aP c opts acc m).2 = acc.2 := by
  unfold syncStep
  by_cases hs : shouldSync m.kind opts
  · simp only [hs, Bool.not_true, Bool.false_eq_true, if_false, h]
    have hfr := syncResource_dryRun_frame aC aP aC' aP' m
      (if opts.namespace' ≠ "" && !isClusterScoped m.kind then opts.namespace'
        else m.getNamespace) acc.2
    rw [← hfr.1]
    rcases hres : syncResource aC aP m
      (if opts.namespace' ≠ "" && !isClusterScoped m.kind then opts.namespace'
        else m.getNamespace) true acc.2 with ⟨res, st'⟩
    have hst : st' = acc.2 := by
      have := hfr.2
      rw [hres] at this
      exact this
    rcases res with e | r
    · simp [hst]
    · rcases r with ⟨rc, rk, rn, rns, ract, rmsg⟩
      cases ract <;> simp [hst]
  · simp [hs]

/-- C8 counterexample: in a dry run, a non-skipped manifest whose apiVersion
fails to parse is classified `failed` — not would-create or would-update —
even though no existence fetch ever happened. -/
theorem dry_run_classifies_gvr_failure_as_failed_counterexample :
    shouldSync c8BadManifest.kind ⟨true, false, "", [], []⟩ = true ∧
    ((sync c8Api c8Api [c8BadManifest] "c1" ⟨true, false, "", [], []⟩ []).1).failed
      = 1 ∧
    ((sync c8Api c8Api [c8BadManifest] "c1" ⟨true, false, "", [], []⟩
      []).1).results.map SyncResult.action = [.failed] :=
  ⟨by decide, by decide, by decide⟩

/-- C8 amended: a dry-run sync performs no create, update, or patch call (its
outcome is independent of the mutating oracles) and leaves the cluster state
unchanged; each non-skipped manifest whose apiVersion parses is classified
would-create or would-update based solely on whether the existence fetch
succeeds, while a manifest whose apiVersion fails to parse is classified
failed (still without mutation). -/
theorem dry_run_no_mutation_classifies_by_existence :
    (∀ (aC aP aC' aP' : SyncKey → JObject → ClusterState →
        Except String (JObject × ClusterState))
        (ms : List Manifest) (c : String) (opts : SyncOptions)
        (st : ClusterState), opts.dryRun = true →
      sync aC aP ms c opts st = sync aC' aP' ms c opts st ∧
      (sync aC aP ms c opts st).2 = st) ∧
    (∀ (aC aP : SyncKey → JObject → ClusterState →
        Except String (JObject × ClusterState))
        (m : Manifest) (ns : String) (st : ClusterState) (gvr : GVR),
      getGVR m = .ok gvr →
      (st.lookup (syncKeyFor gvr m ns) = none →
        syncResource aC aP m ns true st =
          (.ok ⟨"", m.kind, m.metadata.name, ns, .created,
            "Would create (dry-run)"⟩, st)) ∧
      (∀ ex, st.lookup (syncKeyFor gvr m ns) = some ex →
        syncResource aC aP m ns true st =
          (.ok ⟨"", m.kind, m.metadata.name, ns, .updated,
            "Would update (dry-run)"⟩, st))) := by
  constructor
  · intro aC aP aC' aP' ms c opts st h
    have haux : ∀ (l : List Manifest) (acc : SyncSummary × ClusterState),
        l.foldl (syncStep aC aP c opts) acc =
          l.foldl (syncStep aC' aP' c opts) acc ∧
        (l.foldl (syncStep aC aP c opts) acc).2 = acc.2 := by
      intro l
      induction l with
      | nil => intro acc; exact ⟨rfl, rfl⟩
      | cons hd tl ih =>
        intro acc
        have hstep := syncStep_dryRun_frame aC aP aC' aP' c opts acc hd h
        constructor
        · rw [List.foldl_cons, List.foldl_cons, ← hstep.1, (ih _).1]
        · rw [List.foldl_cons, (ih _).2, hstep.2]
    exact haux ms ⟨⟨c, 0, 0, 0, 0, 0, []⟩, st⟩
  · intro aC aP m ns st gvr hg
    constructor
    · intro hl
      simp [syncResource, hg, hl]
    · intro ex hl
      simp [syncResource, hg, hl]

/-- C8 amended witness: a dry run over the example Deployment has the same
outcome under the storing and the always-failing oracles, leaves the empty
cluster state empty, and an absent resource is classified would-create. -/
theorem dry_run_no_mutation_classifies_by_existence_witness :
    (sync c8Api c8Api [c8Manifest] "c1" ⟨true, false, "", [], []⟩ [] =
      sync c8ApiAlt c8ApiAlt [c8Manifest] "c1" ⟨true, false, "", [], []⟩ [] ∧
    (sync c8Api c8Api [c8Manifest] "c1" ⟨true, false, "", [], []⟩ []).2 = []) ∧
    syncResource c8Api c8Api c8Manifest "default" true [] =
      (.ok ⟨"", c8Manifest.kind, c8Manifest.metadata.name, "default", .created,
        "Would create (dry-run)"⟩, []) :=
  ⟨dry_run_no_mutation_classifies_by_existence.1 c8Api c8Api c8ApiAlt c8ApiAlt
      [c8Manifest] "c1" ⟨true, false, "", [], []⟩ [] rfl,
    (dry_run_no_mutation_classifies_by_existence.2 c8Api c8Api c8Manifest
      "default" [] ⟨"apps", "v1", "deployments"⟩ (by decide)).1 rfl⟩

end KubeStellar
